import Mathlib

/-!
Shallow embedding of the lunara-afiliados backend (Express route handlers
over a relational store) for spec verification.

The data model mirrors src/supabase/migrations/20250716023715_long_trail.sql;
the operations mirror the route handlers:
  * bookings route (src/unnamed/part_002): list with pagination, create
    (inside one database transaction), confirm, cancel;
  * commissions route (src/unnamed/part_003): pay handler's catch;
  * therapists route (src/unnamed/part_004): create handler's catch and
    GET /:id/availability;
  * services route (src/unnamed/part_005), affiliates route
    (src/routes/affiliates.js), users route (src/routes/users.js): catches.

Monetary columns are DECIMAL, embedded as ℚ; times are minutes since
midnight; dates are opaque strings compared for equality, exactly as the
SQL equality comparison does.
-/

namespace Lunara

/-- bookings.status: CHECK (status IN ('pending','confirmed','cancelled','completed')). -/
inductive BStatus where
  | pending
  | confirmed
  | cancelled
  | completed
deriving DecidableEq, Repr

/-- commissions.status: CHECK (status IN ('pending','paid','cancelled')). -/
inductive CStatus where
  | pending
  | paid
  | cancelled
deriving DecidableEq, Repr

/-- A row of the services table (the columns the handlers read). -/
structure Service where
  id : Nat
  therapist_id : Nat
  price : ℚ
  duration_minutes : Nat
  is_active : Bool
deriving DecidableEq, Repr

/-- A row of the affiliates table (the columns the handlers read). -/
structure Affiliate where
  id : Nat
  referral_code : String
  commission_rate : ℚ
deriving DecidableEq, Repr

/-- A row of the bookings table (the columns the handlers read and write). -/
structure Booking where
  id : Nat
  service_id : Nat
  therapist_id : Nat
  affiliate_id : Option Nat
  client_name : String
  client_email : String
  client_phone : Option String
  scheduled_date : String
  scheduled_time : Nat
  notes : Option String
  total_amount : ℚ
  status : BStatus
  cancellation_reason : Option String
deriving DecidableEq, Repr

/-- A row of the commissions table (the columns the create-booking
transaction writes). -/
structure Commission where
  affiliate_id : Nat
  booking_id : Nat
  amount : ℚ
  percentage : ℚ
  status : CStatus
deriving DecidableEq, Repr

/-- The relational store as seen by the bookings/commissions handlers. -/
structure Store where
  services : List Service
  affiliates : List Affiliate
  bookings : List Booking
  commissions : List Commission
  nextBookingId : Nat
deriving DecidableEq, Repr

/-- An HTTP JSON response: status code plus the success flag and message
of the JSON body. -/
structure Response where
  status : Nat
  success : Bool
  message : String
deriving DecidableEq, Repr

/-- Request body of POST /bookings after express-validator has accepted it. -/
structure CreateBookingInput where
  therapist_id : Nat
  service_id : Nat
  client_name : String
  client_email : String
  client_phone : Option String
  scheduled_date : String
  scheduled_time : Nat
  notes : Option String
  affiliate_code : Option String
deriving DecidableEq, Repr

/-- The queries the create-booking transaction issues, in source order. -/
inductive Step where
  | lookupService
  | conflictCheck
  | resolveAffiliate
  | insertBooking
  | insertCommission
deriving DecidableEq, Repr

/-- The query `SELECT * FROM services WHERE id = $1 AND therapist_id = $2 AND is_active = true`. -/
def findService (st : Store) (sid tid : Nat) : Option Service :=
  st.services.find? fun s => s.id == sid && s.therapist_id == tid && s.is_active

/-- The query `SELECT id FROM bookings WHERE therapist_id = $1 AND scheduled_date = $2
AND scheduled_time = $3 AND status NOT IN ('cancelled','completed')` is
nonempty. -/
def hasConflict (st : Store) (tid : Nat) (d : String) (t : Nat) : Bool :=
  st.bookings.any fun b =>
    b.therapist_id == tid && b.scheduled_date == d && b.scheduled_time == t &&
      !(b.status == BStatus.cancelled || b.status == BStatus.completed)

/-- JavaScript truthiness of the destructured `affiliate_code`: present and
nonempty. -/
def codeGiven (inp : CreateBookingInput) : Bool :=
  match inp.affiliate_code with
  | none => false
  | some c => c ≠ ""

/-- The query `SELECT id FROM affiliates WHERE referral_code = $1`, run only when the
code is truthy; `affiliate_id` stays null when no row matches. -/
def resolveAffiliateId (st : Store) (inp : CreateBookingInput) : Option Nat :=
  match inp.affiliate_code with
  | none => none
  | some c =>
      if c ≠ "" then (st.affiliates.find? fun a => a.referral_code == c).map (·.id)
      else none

/-- The booking row the INSERT builds (status 'pending', total_amount from
the looked-up service price). -/
def mkBooking (st : Store) (inp : CreateBookingInput) (price : ℚ)
    (aff : Option Nat) : Booking :=
  { id := st.nextBookingId
    service_id := inp.service_id
    therapist_id := inp.therapist_id
    affiliate_id := aff
    client_name := inp.client_name
    client_email := inp.client_email
    client_phone := inp.client_phone
    scheduled_date := inp.scheduled_date
    scheduled_time := inp.scheduled_time
    notes := inp.notes
    total_amount := price
    status := BStatus.pending
    cancellation_reason := none }

/-- The affiliate row the commission insert reads: the id resolved from
the referral code, looked up again by
`SELECT commission_rate FROM affiliates WHERE id = $1`; the commission is
inserted exactly when this is `some`. -/
def commissionAffiliate (st : Store) (inp : CreateBookingInput) : Option Affiliate :=
  match resolveAffiliateId st inp with
  | none => none
  | some aid => st.affiliates.find? fun a => a.id == aid

/-- Outcome of the transaction body: the raised error message, or the
created booking together with the client's working store. -/
inductive TxOutcome where
  | thrown (msg : String)
  | committed (b : Booking) (st : Store)
deriving DecidableEq, Repr

/-- The body of the create-booking transaction (part_002 lines 166-245),
returning the trace of queries it issued and its outcome. Steps in source
order: service lookup, conflict check, optional affiliate resolution,
booking insert, conditional commission insert. -/
def createBookingBody (st : Store) (inp : CreateBookingInput) :
    List Step × TxOutcome :=
  match findService st inp.service_id inp.therapist_id with
  | none => ([Step.lookupService], TxOutcome.thrown "Serviço não encontrado ou inativo")
  | some service =>
    if hasConflict st inp.therapist_id inp.scheduled_date inp.scheduled_time then
      ([Step.lookupService, Step.conflictCheck], TxOutcome.thrown "Horário não disponível")
    else
      let resolveTrace := if codeGiven inp then [Step.resolveAffiliate] else []
      let aff := resolveAffiliateId st inp
      let booking := mkBooking st inp service.price aff
      let st1 : Store :=
        { st with bookings := st.bookings ++ [booking],
                  nextBookingId := st.nextBookingId + 1 }
      match aff with
      | none =>
          ([Step.lookupService, Step.conflictCheck] ++ resolveTrace ++ [Step.insertBooking],
           TxOutcome.committed booking st1)
      | some aid =>
          match st.affiliates.find? fun a => a.id == aid with
          | none =>
              ([Step.lookupService, Step.conflictCheck] ++ resolveTrace ++ [Step.insertBooking],
               TxOutcome.committed booking st1)
          | some a =>
              let commissionAmount := service.price * a.commission_rate / 100
              let comm : Commission :=
                { affiliate_id := aid
                  booking_id := booking.id
                  amount := commissionAmount
                  percentage := a.commission_rate
                  status := CStatus.pending }
              ([Step.lookupService, Step.conflictCheck] ++ resolveTrace ++
                 [Step.insertBooking, Step.insertCommission],
               TxOutcome.committed booking
                 { st1 with commissions := st1.commissions ++ [comm] })

/-- POST /bookings: the transaction wrapper commits the working store on
success (201) and rolls back to the original store when the body throws;
the handler's catch turns the thrown message into a 500 with
`error.message || 'Erro interno do servidor'`. -/
def createBooking (st : Store) (inp : CreateBookingInput) :
    List Step × Response × Store :=
  match createBookingBody st inp with
  | (tr, TxOutcome.thrown msg) =>
      (tr, { status := 500, success := false,
             message := if msg = "" then "Erro interno do servidor" else msg }, st)
  | (tr, TxOutcome.committed _ st') =>
      (tr, { status := 201, success := true,
             message := "Agendamento criado com sucesso" }, st')

/-- PUT /bookings/:id/confirm (part_002 lines 264-296):
`UPDATE bookings SET status = 'confirmed' WHERE id = $1 AND status = 'pending'
RETURNING *`; no row updated gives a 404 and leaves the store unchanged. -/
def confirmBooking (st : Store) (bid : Nat) : Response × Store :=
  if st.bookings.any (fun b => b.id == bid && b.status == BStatus.pending) then
    ({ status := 200, success := true,
       message := "Agendamento confirmado com sucesso" },
     { st with bookings := st.bookings.map fun b =>
        if b.id == bid && b.status == BStatus.pending then
          { b with status := BStatus.confirmed } else b })
  else
    ({ status := 404, success := false,
       message := "Agendamento não encontrado ou já processado" }, st)

/-- PUT /bookings/:id/cancel (part_002 lines 299-332):
`UPDATE bookings SET status = 'cancelled', cancellation_reason = $2
WHERE id = $1 AND status IN ('pending','confirmed') RETURNING *`;
no row updated gives a 404 and leaves the store unchanged. -/
def cancelBooking (st : Store) (bid : Nat) (reason : Option String) :
    Response × Store :=
  if st.bookings.any (fun b => b.id == bid &&
      (b.status == BStatus.pending || b.status == BStatus.confirmed)) then
    ({ status := 200, success := true,
       message := "Agendamento cancelado com sucesso" },
     { st with bookings := st.bookings.map fun b =>
        if b.id == bid && (b.status == BStatus.pending || b.status == BStatus.confirmed) then
          { b with status := BStatus.cancelled, cancellation_reason := reason } else b })
  else
    ({ status := 404, success := false,
       message := "Agendamento não encontrado ou não pode ser cancelado" }, st)

/-! ### Catch blocks of the route handlers

Each function below is the literal catch block of one handler: the response
it produces when the awaited store call (or the transaction) rejects with
error message `e`. `e || 'Erro interno do servidor'` is JavaScript
string-falsiness on the message. -/

/-- The fallback `error.message || 'Erro interno do servidor'`. -/
def orGenericMessage (e : String) : String :=
  if e = "" then "Erro interno do servidor" else e

/-- Catch of GET /bookings (part_002 lines 119-125): generic 500. -/
def bookingsListCatch (_e : String) : Response :=
  { status := 500, success := false, message := "Erro interno do servidor" }

/-- Catch of POST /bookings (part_002 lines 253-259): 500 carrying
`error.message || generic`. -/
def bookingsCreateCatch (e : String) : Response :=
  { status := 500, success := false, message := orGenericMessage e }

/-- Catch of POST /affiliates (src/routes/affiliates.js lines 164-170):
400 carrying `error.message || generic`. -/
def affiliatesCreateCatch (e : String) : Response :=
  { status := 400, success := false, message := orGenericMessage e }

/-- Catch of POST /commissions/:id/pay (part_003 lines 222-228):
400 carrying `error.message || generic`. -/
def commissionsPayCatch (e : String) : Response :=
  { status := 400, success := false, message := orGenericMessage e }

/-- Catch of POST /therapists (part_004 lines 140-146):
400 carrying `error.message || generic`. -/
def therapistsCreateCatch (e : String) : Response :=
  { status := 400, success := false, message := orGenericMessage e }

/-- Catch of POST /services (part_005 lines 138-144): generic 500. -/
def servicesCreateCatch (_e : String) : Response :=
  { status := 500, success := false, message := "Erro interno do servidor" }

/-- Catch of PUT /users/profile (src/routes/users.js lines 136-142):
generic 500. -/
def usersUpdateProfileCatch (_e : String) : Response :=
  { status := 500, success := false, message := "Erro interno do servidor" }

/-- The catch blocks of the route handlers present in the repository's
route files, by handler. -/
def catchHandlers : List (String × (String → Response)) :=
  [("GET /bookings", bookingsListCatch),
   ("POST /bookings", bookingsCreateCatch),
   ("POST /affiliates", affiliatesCreateCatch),
   ("POST /commissions/:id/pay", commissionsPayCatch),
   ("POST /therapists", therapistsCreateCatch),
   ("POST /services", servicesCreateCatch),
   ("PUT /users/profile", usersUpdateProfileCatch)]

/-! ### GET /bookings: pagination (part_002 lines 8-127) -/

/-- Query parameters of GET /bookings after numeric parsing; `none` means
the parameter was absent. -/
structure ListBookingsQuery where
  page : Option Int
  limit : Option Int
  status : Option BStatus
  therapist_id : Option Nat
  affiliate_id : Option Nat
  date_from : Option String
  date_to : Option String
deriving DecidableEq, Repr

/-- The express-validator rule list: `page` optional isInt min 1,
`limit` optional isInt min 1 max 100. -/
def validListQuery (q : ListBookingsQuery) : Bool :=
  (match q.page with
   | none => true
   | some p => 1 ≤ p) &&
  (match q.limit with
   | none => true
   | some l => 1 ≤ l && l ≤ 100)

/-- The assignment `parseInt(req.query.page) || 1`: absent gives 1, zero is falsy. -/
def pageOf (q : ListBookingsQuery) : Int :=
  match q.page with
  | none => 1
  | some p => if p = 0 then 1 else p

/-- The assignment `parseInt(req.query.limit) || 10`. -/
def limitOf (q : ListBookingsQuery) : Int :=
  match q.limit with
  | none => 10
  | some l => if l = 0 then 10 else l

/-- The WHERE clause the handler assembles from the optional filters
(equality on status/therapist/affiliate, `scheduled_date >= date_from`,
`scheduled_date <= date_to`). -/
def matchesFilters (q : ListBookingsQuery) (b : Booking) : Bool :=
  (match q.status with
   | none => true
   | some s => b.status == s) &&
  (match q.therapist_id with
   | none => true
   | some t => b.therapist_id == t) &&
  (match q.affiliate_id with
   | none => true
   | some a => b.affiliate_id == some a) &&
  (match q.date_from with
   | none => true
   | some d => decide (d ≤ b.scheduled_date)) &&
  (match q.date_to with
   | none => true
   | some d => decide (b.scheduled_date ≤ d))

/-- The pagination object of the response, together with the OFFSET the
main query used. -/
structure PageInfo where
  page : Int
  limit : Int
  total : Nat
  pages : Int
  offset : Int
deriving DecidableEq, Repr

/-- GET /bookings: validation first (400 on failure), then
`offset = (page - 1) * limit`, `total = COUNT(*)` under the same WHERE
clause, and `pages = Math.ceil(total / limit)`. -/
def listBookings (st : Store) (q : ListBookingsQuery) : Response × Option PageInfo :=
  if validListQuery q then
    let page := pageOf q
    let limit := limitOf q
    let total := (st.bookings.filter (matchesFilters q)).length
    ({ status := 200, success := true, message := "" },
     some { page := page
            limit := limit
            total := total
            pages := ⌈(total : ℚ) / (limit : ℚ)⌉
            offset := (page - 1) * limit })
  else
    ({ status := 400, success := false, message := "Parâmetros inválidos" }, none)

/-! ### GET /therapists/:id/availability (part_004 lines 245-306) -/

/-- The fixed grid of candidate slots, in minutes since midnight:
`for (hour = 8; hour < 18; hour++)` pushing `hh:00` and `hh:30`. -/
def defaultSlots : List Nat :=
  (List.range 10).flatMap fun h => [(8 + h) * 60, (8 + h) * 60 + 30]

/-- The busy-slot query: bookings of the therapist on the date whose status
is NOT IN ('cancelled','completed'), joined to services for
duration_minutes. Each element is (start, duration) in minutes. -/
def busySlots (st : Store) (tid : Nat) (d : String) : List (Nat × Nat) :=
  st.bookings.filterMap fun b =>
    if b.therapist_id == tid && b.scheduled_date == d &&
        !(b.status == BStatus.cancelled || b.status == BStatus.completed) then
      (st.services.find? fun s => s.id == b.service_id).map fun s =>
        (b.scheduled_time, s.duration_minutes)
    else none

/-- The test `slotTime < busyEnd && slotEnd > busyStart` with a 60-minute slot. -/
def slotOverlapsBusy (slot : Nat) (busy : Nat × Nat) : Bool :=
  slot < busy.1 + busy.2 && busy.1 < slot + 60

/-- The `available_slots` list: the default grid filtered to slots overlapping no
busy interval. -/
def availableSlots (st : Store) (tid : Nat) (d : String) : List Nat :=
  defaultSlots.filter fun slot => !(busySlots st tid d).any (slotOverlapsBusy slot)

/-! ### SQL schema constraints
(src/supabase/migrations/20250716023715_long_trail.sql)

Each table's declared constraints are transcribed from the DDL. Column
types such as DECIMAL(5,2) are types, not constraints, and are not listed;
in particular the DDL declares no CHECK on any commission_rate column. -/

/-- A declared table constraint of the DDL. -/
inductive Constr where
  | primaryKeyCol (col : String)
  | uniqueCol (col : String)
  | notNullCol (col : String)
  | checkIn (col : String) (allowed : List String)
  | checkBetween (col : String) (lo hi : Int)
  | foreignKey (col : String) (tbl : String)
deriving DecidableEq, Repr

/-- Constraints of CREATE TABLE users. -/
def usersConstraints : List Constr :=
  [Constr.primaryKeyCol "id",
   Constr.notNullCol "name",
   Constr.uniqueCol "email", Constr.notNullCol "email",
   Constr.notNullCol "password_hash",
   Constr.checkIn "role" ["admin", "therapist", "affiliate"]]

/-- Constraints of CREATE TABLE affiliates. commission_rate is
DECIMAL(5,2) DEFAULT 15.00 with no CHECK. -/
def affiliatesConstraints : List Constr :=
  [Constr.primaryKeyCol "id",
   Constr.foreignKey "user_id" "users",
   Constr.uniqueCol "referral_code", Constr.notNullCol "referral_code"]

/-- Constraints of CREATE TABLE therapists. commission_rate is
DECIMAL(5,2) DEFAULT 30.00 with no CHECK. -/
def therapistsConstraints : List Constr :=
  [Constr.primaryKeyCol "id",
   Constr.foreignKey "user_id" "users",
   Constr.notNullCol "specialty"]

/-- Constraints of CREATE TABLE services. -/
def servicesConstraints : List Constr :=
  [Constr.primaryKeyCol "id",
   Constr.foreignKey "therapist_id" "therapists",
   Constr.notNullCol "name", Constr.notNullCol "price"]

/-- Constraints of CREATE TABLE bookings. -/
def bookingsConstraints : List Constr :=
  [Constr.primaryKeyCol "id",
   Constr.foreignKey "service_id" "services",
   Constr.foreignKey "therapist_id" "therapists",
   Constr.foreignKey "affiliate_id" "affiliates",
   Constr.notNullCol "client_name", Constr.notNullCol "client_email",
   Constr.notNullCol "scheduled_date", Constr.notNullCol "scheduled_time",
   Constr.checkIn "status" ["pending", "confirmed", "cancelled", "completed"],
   Constr.notNullCol "total_amount",
   Constr.checkIn "payment_status" ["pending", "paid", "cancelled", "refunded"]]

/-- Constraints of CREATE TABLE commissions. -/
def commissionsConstraints : List Constr :=
  [Constr.primaryKeyCol "id",
   Constr.foreignKey "affiliate_id" "affiliates",
   Constr.foreignKey "booking_id" "bookings",
   Constr.notNullCol "amount", Constr.notNullCol "percentage",
   Constr.checkIn "status" ["pending", "paid", "cancelled"]]

/-- Constraints of CREATE TABLE licenses. -/
def licensesConstraints : List Constr :=
  [Constr.primaryKeyCol "id",
   Constr.uniqueCol "serial_key", Constr.notNullCol "serial_key",
   Constr.notNullCol "license_type",
   Constr.checkIn "status" ["pending", "active", "expired", "revoked"],
   Constr.foreignKey "activated_by" "users"]

/-- Whether a declared constraint is a range check on the given column. -/
def isRangeCheckOn (col : String) : Constr → Bool
  | Constr.checkBetween c _ _ => c == col
  | _ => false

/-- Row-level CHECK semantics: evaluate the CHECK constraints of a
constraint list against a row given as partial column assignments
(numeric and string columns). Uniqueness, keys and NOT NULL are
table-level or nullability facts and do not restrict a present value. -/
def rowPassesChecks (cs : List Constr) (num : String → Option ℚ)
    (str : String → Option String) : Bool :=
  cs.all fun c =>
    match c with
    | Constr.checkIn col allowed =>
        match str col with
        | none => true
        | some v => allowed.contains v
    | Constr.checkBetween col lo hi =>
        match num col with
        | none => true
        | some v => decide ((lo : ℚ) ≤ v ∧ v ≤ (hi : ℚ))
    | _ => true

/-- The property C7 ascribes to the schema for commission_rate: some
declared constraint is a range check on that column of the affiliates or
therapists table. -/
def commissionRateRangeCheckDeclared : Prop :=
  ∃ lo hi, Constr.checkBetween "commission_rate" lo hi ∈ affiliatesConstraints ∨
    Constr.checkBetween "commission_rate" lo hi ∈ therapistsConstraints

/-! ### Concrete sample data for closed instances -/

/-- A sample active service of therapist 1. -/
def sampleService : Service :=
  { id := 10, therapist_id := 1, price := 200, duration_minutes := 60,
    is_active := true }

/-- A sample affiliate with referral code AFF01 and rate 15%. -/
def sampleAffiliate : Affiliate :=
  { id := 5, referral_code := "AFF01", commission_rate := 15 }

/-- A pending booking of therapist 1 at 09:00 on 2026-01-10. -/
def sampleBooking : Booking :=
  { id := 1, service_id := 10, therapist_id := 1, affiliate_id := none,
    client_name := "Ana", client_email := "ana@example.com",
    client_phone := none, scheduled_date := "2026-01-10",
    scheduled_time := 540, notes := none, total_amount := 200,
    status := BStatus.pending, cancellation_reason := none }

/-- A store with one service and one affiliate and no bookings. -/
def sampleStore : Store :=
  { services := [sampleService], affiliates := [sampleAffiliate],
    bookings := [], commissions := [], nextBookingId := 1 }

/-- The sample store with the 09:00 slot already booked (pending). -/
def conflictStore : Store :=
  { sampleStore with bookings := [sampleBooking], nextBookingId := 2 }

/-- The sample store whose only booking is already completed. -/
def completedStore : Store :=
  { sampleStore with
      bookings := [{ sampleBooking with status := BStatus.completed }],
      nextBookingId := 2 }

/-- A create-booking request for the 09:00 slot carrying code AFF01. -/
def sampleInput : CreateBookingInput :=
  { therapist_id := 1, service_id := 10, client_name := "Bia",
    client_email := "bia@example.com", client_phone := none,
    scheduled_date := "2026-01-10", scheduled_time := 540, notes := none,
    affiliate_code := some "AFF01" }

/-- The same request with an affiliate code matching no affiliate. -/
def unknownCodeInput : CreateBookingInput :=
  { sampleInput with affiliate_code := some "NOPE" }

/-- A GET /bookings request with no query parameters. -/
def defaultQuery : ListBookingsQuery :=
  { page := none, limit := none, status := none, therapist_id := none,
    affiliate_id := none, date_from := none, date_to := none }

/-- Formalization of the spec claim on error handling (C5), for
comparison with the transcribed catch blocks: every handler's catch maps
any store error to a 500. -/
def claimedAllCatchesAre500 : Prop :=
  ∀ p ∈ catchHandlers, ∀ e : String, (p.2 e).status = 500

/-- Formalization of the spec claim on the schema (C7), for comparison
with the transcribed DDL: the uniqueness constraints, a range check on
commission_rate, and the enum-membership checks are all declared. -/
def claimedSchemaConstraints : Prop :=
  Constr.uniqueCol "email" ∈ usersConstraints ∧
  Constr.uniqueCol "referral_code" ∈ affiliatesConstraints ∧
  Constr.uniqueCol "serial_key" ∈ licensesConstraints ∧
  commissionRateRangeCheckDeclared ∧
  Constr.checkIn "status" ["pending", "confirmed", "cancelled", "completed"]
    ∈ bookingsConstraints ∧
  Constr.checkIn "status" ["pending", "paid", "cancelled"] ∈ commissionsConstraints ∧
  Constr.checkIn "status" ["pending", "active", "expired", "revoked"]
    ∈ licensesConstraints

/-! ## Theorems -/

/-- C7 (counterexample): the claim is false as stated — the DDL declares
no range check on any commission_rate column; the affiliates and
therapists tables carry only key, uniqueness and NOT NULL constraints on
other columns, and a row whose commission_rate is 500 (far outside 0-100)
passes every CHECK constraint of the affiliates table. -/
theorem schemaClaimRefuted :
    ¬ claimedSchemaConstraints ∧
    rowPassesChecks affiliatesConstraints
      (fun c => if c = "commission_rate" then some 500 else none)
      (fun _ => none) = true := by
  constructor
  · intro h
    obtain ⟨lo, hi, hmem | hmem⟩ := h.2.2.2.1
    · simp [affiliatesConstraints] at hmem
    · simp [therapistsConstraints] at hmem
  · rfl

/-- C7 (amended): the SQL schema's declared constraints express the
uniqueness of users.email, affiliates.referral_code and
licenses.serial_key, and the enum-membership checks on bookings.status,
commissions.status and licenses.status (plus users.role and
bookings.payment_status); but no range check on commission_rate is
declared anywhere — a commission_rate of 500 passes all CHECK constraints
of the affiliates table, while a bookings row with an out-of-enum status
fails its CHECK. -/
theorem schemaConstraintsActual :
    Constr.uniqueCol "email" ∈ usersConstraints ∧
    Constr.uniqueCol "referral_code" ∈ affiliatesConstraints ∧
    Constr.uniqueCol "serial_key" ∈ licensesConstraints ∧
    Constr.checkIn "status" ["pending", "confirmed", "cancelled", "completed"]
      ∈ bookingsConstraints ∧
    Constr.checkIn "status" ["pending", "paid", "cancelled"] ∈ commissionsConstraints ∧
    Constr.checkIn "status" ["pending", "active", "expired", "revoked"]
      ∈ licensesConstraints ∧
    Constr.checkIn "role" ["admin", "therapist", "affiliate"] ∈ usersConstraints ∧
    Constr.checkIn "payment_status" ["pending", "paid", "cancelled", "refunded"]
      ∈ bookingsConstraints ∧
    ¬ commissionRateRangeCheckDeclared ∧
    rowPassesChecks affiliatesConstraints
      (fun c => if c = "commission_rate" then some 500 else none)
      (fun _ => none) = true ∧
    rowPassesChecks bookingsConstraints (fun _ => none)
      (fun c => if c = "status" then some "archived" else none) = false := by
  refine ⟨by simp [usersConstraints], by simp [affiliatesConstraints],
    by simp [licensesConstraints], by simp [bookingsConstraints],
    by simp [commissionsConstraints], by simp [licensesConstraints],
    by simp [usersConstraints], by simp [bookingsConstraints], ?_, rfl, rfl⟩
  rintro ⟨lo, hi, hmem | hmem⟩
  · simp [affiliatesConstraints] at hmem
  · simp [therapistsConstraints] at hmem

/-- C5 (counterexample): the claim is false as stated — the catch of
POST /affiliates answers a store error with status 400, and the 400
carries the store-layer error message verbatim. -/
theorem catchClaimRefuted :
    ¬ claimedAllCatchesAre500 ∧
    affiliatesCreateCatch "database connection lost" =
      { status := 400, success := false, message := "database connection lost" } := by
  constructor
  · intro h
    have hm : ("POST /affiliates", affiliatesCreateCatch) ∈ catchHandlers := by
      unfold catchHandlers
      exact List.Mem.tail _ (List.Mem.tail _ (List.Mem.head _))
    have := h _ hm "database connection lost"
    simp [affiliatesCreateCatch] at this
  · rfl

/-- C5 (amended): the list/read/update handlers map errors to the generic
500, and the create-booking catch keeps status 500 but carries
`error.message || generic`; however the create-affiliate,
create-therapist and pay-commission catches answer with status 400
carrying `error.message || generic`. -/
theorem catchResponsesActual (e : String) :
    bookingsListCatch e =
      { status := 500, success := false, message := "Erro interno do servidor" } ∧
    servicesCreateCatch e =
      { status := 500, success := false, message := "Erro interno do servidor" } ∧
    usersUpdateProfileCatch e =
      { status := 500, success := false, message := "Erro interno do servidor" } ∧
    bookingsCreateCatch e =
      { status := 500, success := false, message := orGenericMessage e } ∧
    affiliatesCreateCatch e =
      { status := 400, success := false, message := orGenericMessage e } ∧
    therapistsCreateCatch e =
      { status := 400, success := false, message := orGenericMessage e } ∧
    commissionsPayCatch e =
      { status := 400, success := false, message := orGenericMessage e } :=
  ⟨rfl, rfl, rfl, rfl, rfl, rfl, rfl⟩

/-- C4 (counterexample): the claim is false as stated — the UPDATEs are
conditional on the current status. On a store whose only booking (id 1)
is already completed, the confirm operation does not set its status to
'confirmed': it answers 404 and leaves the status 'completed', and cancel
likewise leaves it 'completed' with a 404. -/
theorem statusUpdateClaimRefuted :
    (confirmBooking completedStore 1).2.bookings.map Booking.status =
      [BStatus.completed] ∧
    (confirmBooking completedStore 1).1.status = 404 ∧
    (cancelBooking completedStore 1 none).2.bookings.map Booking.status =
      [BStatus.completed] ∧
    (cancelBooking completedStore 1 none).1.status = 404 ∧
    BStatus.completed ≠ BStatus.confirmed ∧
    BStatus.completed ≠ BStatus.cancelled := by
  refine ⟨?_, rfl, ?_, rfl, by decide, by decide⟩ <;> rfl

/-- C4 (amended): confirm sets status to 'confirmed' only for a booking
whose current status is 'pending', and cancel sets status to 'cancelled'
only for a booking whose current status is 'pending' or 'confirmed'; the
update is guarded by the WHERE clause, succeeds exactly when a matching
row exists, and otherwise the handler answers 404 and the store is
unchanged. -/
theorem statusUpdateConditional (st : Store) (bid : Nat) (reason : Option String) :
    ((confirmBooking st bid).2.bookings = st.bookings.map fun b =>
        if b.id == bid && b.status == BStatus.pending then
          { b with status := BStatus.confirmed } else b) ∧
    ((confirmBooking st bid).1.success = true ↔
      (st.bookings.any fun b => b.id == bid && b.status == BStatus.pending) = true) ∧
    ((confirmBooking st bid).1.success = false →
      (confirmBooking st bid).1.status = 404 ∧ (confirmBooking st bid).2 = st) ∧
    ((cancelBooking st bid reason).2.bookings = st.bookings.map fun b =>
        if b.id == bid && (b.status == BStatus.pending || b.status == BStatus.confirmed) then
          { b with status := BStatus.cancelled, cancellation_reason := reason }
        else b) ∧
    ((cancelBooking st bid reason).1.success = true ↔
      (st.bookings.any fun b => b.id == bid &&
        (b.status == BStatus.pending || b.status == BStatus.confirmed)) = true) ∧
    ((cancelBooking st bid reason).1.success = false →
      (cancelBooking st bid reason).1.status = 404 ∧
      (cancelBooking st bid reason).2 = st) := by
  have mapId : ∀ (l : List Booking) (f : Booking → Booking),
      (∀ b ∈ l, f b = b) → l.map f = l := by
    intro l f hf
    rw [List.map_congr_left hf]; simp
  constructor
  · by_cases h : (st.bookings.any fun b => b.id == bid && b.status == BStatus.pending) = true
    · simp [confirmBooking, h]
    · have hfalse : (st.bookings.any fun b => b.id == bid && b.status == BStatus.pending) = false := by
        revert h; cases st.bookings.any fun b => b.id == bid && b.status == BStatus.pending <;> simp
      have hall := List.any_eq_false.mp hfalse
      simp only [confirmBooking, hfalse, Bool.false_eq_true, if_false]
      refine (mapId _ _ ?_).symm
      intro b hb
      have := hall b hb
      simp only [Bool.not_eq_true] at this
      simp [this]
  constructor
  · by_cases h : (st.bookings.any fun b => b.id == bid && b.status == BStatus.pending) = true
    · simp [confirmBooking, h]
    · simp [confirmBooking, h]
  constructor
  · intro hsucc
    by_cases h : (st.bookings.any fun b => b.id == bid && b.status == BStatus.pending) = true
    · simp [confirmBooking, h] at hsucc
    · simp [confirmBooking, h]
  constructor
  · by_cases h : (st.bookings.any fun b => b.id == bid &&
        (b.status == BStatus.pending || b.status == BStatus.confirmed)) = true
    · simp [cancelBooking, h]
    · have hfalse : (st.bookings.any fun b => b.id == bid &&
          (b.status == BStatus.pending || b.status == BStatus.confirmed)) = false := by
        revert h
        cases st.bookings.any fun b => b.id == bid &&
          (b.status == BStatus.pending || b.status == BStatus.confirmed) <;> simp
      have hall := List.any_eq_false.mp hfalse
      simp only [cancelBooking, hfalse, Bool.false_eq_true, if_false]
      refine (mapId _ _ ?_).symm
      intro b hb
      have := hall b hb
      simp only [Bool.not_eq_true] at this
      simp [this]
  constructor
  · by_cases h : (st.bookings.any fun b => b.id == bid &&
        (b.status == BStatus.pending || b.status == BStatus.confirmed)) = true
    · simp [cancelBooking, h]
    · simp [cancelBooking, h]
  · intro hsucc
    by_cases h : (st.bookings.any fun b => b.id == bid &&
        (b.status == BStatus.pending || b.status == BStatus.confirmed)) = true
    · simp [cancelBooking, h] at hsucc
    · simp [cancelBooking, h]

/-- Closed instance of the amended C4: confirming the pending booking of
the conflict store succeeds, and cancelling the completed booking of the
completed store answers 404 leaving the store unchanged. -/
theorem statusUpdateConditionalWitness :
    (confirmBooking conflictStore 1).1.success = true ∧
    (cancelBooking completedStore 1 none).1.status = 404 ∧
    (cancelBooking completedStore 1 none).2 = completedStore := by
  refine ⟨?_, ?_, ?_⟩
  · exact (statusUpdateConditional conflictStore 1 none).2.1.mpr (by decide)
  · exact ((statusUpdateConditional completedStore 1 none).2.2.2.2.2 (by decide)).1
  · exact ((statusUpdateConditional completedStore 1 none).2.2.2.2.2 (by decide)).2

/-- C8: pagination of GET /bookings. page defaults to 1 and limit to 10
when absent; a supplied page below 1 or limit below 1 or above 100 is
rejected with a 400 and no page info; on a valid request the offset is
(page - 1) × limit and the pages field is the exact ceiling of
total / limit (characterized by (pages - 1) × limit < total ≤ pages ×
limit for the positive limit). -/
theorem paginationArithmetic (st : Store) (q : ListBookingsQuery) :
    (q.page = none → pageOf q = 1) ∧
    (q.limit = none → limitOf q = 10) ∧
    (∀ p, q.page = some p → p < 1 →
      (listBookings st q).1.status = 400 ∧ (listBookings st q).2 = none) ∧
    (∀ l, q.limit = some l → (l < 1 ∨ 100 < l) →
      (listBookings st q).1.status = 400 ∧ (listBookings st q).2 = none) ∧
    (validListQuery q = true →
      ∃ pi, (listBookings st q).2 = some pi ∧
        pi.page = pageOf q ∧ pi.limit = limitOf q ∧
        pi.total = (st.bookings.filter (matchesFilters q)).length ∧
        pi.offset = (pi.page - 1) * pi.limit ∧
        pi.pages = ⌈(pi.total : ℚ) / (pi.limit : ℚ)⌉ ∧
        1 ≤ pi.limit ∧
        (pi.pages - 1) * pi.limit < (pi.total : Int) ∧
        (pi.total : Int) ≤ pi.pages * pi.limit) := by
  refine ⟨fun h => by simp [pageOf, h], fun h => by simp [limitOf, h], ?_, ?_, ?_⟩
  · intro p hp hlt
    have hnot : ¬ (1 : Int) ≤ p := by omega
    have hval : validListQuery q = false := by
      simp [validListQuery, hp, hnot]
    simp [listBookings, hval]
  · intro l hl hbad
    have hnot : ¬ ((1 : Int) ≤ l ∧ l ≤ 100) := by omega
    have hval : validListQuery q = false := by
      simp only [validListQuery, hl]
      rcases hbad with hbad | hbad
      · have : ¬ (1 : Int) ≤ l := by omega
        simp [this]
      · have : ¬ (l : Int) ≤ 100 := by omega
        simp [this]
    simp [listBookings, hval]
  · intro hv
    have hlim : 1 ≤ limitOf q := by
      cases hql : q.limit with
      | none => norm_num [limitOf, hql]
      | some l =>
        simp only [validListQuery, hql, Bool.and_eq_true, decide_eq_true_eq] at hv
        have h1 : (1 : Int) ≤ l := hv.2.1
        have hne : l ≠ 0 := by omega
        simp only [limitOf, hql, hne, if_false]
        omega
    set t : Nat := (st.bookings.filter (matchesFilters q)).length with ht
    set L : Int := limitOf q with hLdef
    have hLpos : (0 : ℚ) < (L : ℚ) := by
      have : (0 : Int) < L := by omega
      exact_mod_cast this
    refine ⟨{ page := pageOf q, limit := L, total := t,
              pages := ⌈(t : ℚ) / (L : ℚ)⌉,
              offset := (pageOf q - 1) * L }, ?_, rfl, rfl, rfl, rfl, rfl, hlim, ?_, ?_⟩
    · simp [listBookings, hv]
    · have h2 : (⌈(t : ℚ) / (L : ℚ)⌉ : ℚ) < (t : ℚ) / (L : ℚ) + 1 :=
        Int.ceil_lt_add_one _
      have h3 : (⌈(t : ℚ) / (L : ℚ)⌉ : ℚ) - 1 < (t : ℚ) / (L : ℚ) := by linarith
      have h4 : ((⌈(t : ℚ) / (L : ℚ)⌉ : ℚ) - 1) * (L : ℚ) < (t : ℚ) :=
        (lt_div_iff₀ hLpos).mp h3
      exact_mod_cast h4
    · have h1 : (t : ℚ) / (L : ℚ) ≤ (⌈(t : ℚ) / (L : ℚ)⌉ : ℚ) := Int.le_ceil _
      have h2 : (t : ℚ) ≤ (⌈(t : ℚ) / (L : ℚ)⌉ : ℚ) * (L : ℚ) :=
        (div_le_iff₀ hLpos).mp h1
      exact_mod_cast h2

/-- Closed instance of C8 at the conflict store with an empty query:
defaults apply and the pagination equations hold. -/
theorem paginationArithmeticWitness :
    pageOf defaultQuery = 1 ∧ limitOf defaultQuery = 10 ∧
    ∃ pi, (listBookings conflictStore defaultQuery).2 = some pi ∧
      pi.offset = (pi.page - 1) * pi.limit ∧
      (pi.total : Int) ≤ pi.pages * pi.limit := by
  have h := paginationArithmetic conflictStore defaultQuery
  refine ⟨h.1 rfl, h.2.1 rfl, ?_⟩
  obtain ⟨pi, hsome, _, _, _, hoff, _, _, _, hub⟩ := h.2.2.2.2 rfl
  exact ⟨pi, hsome, hoff, hub⟩

/-- C10: every slot returned by GET /therapists/:id/availability belongs
to the fixed half-hour grid from 08:00 to 17:30, and, as a 60-minute
interval, overlaps no interval [start, start + duration) of a
non-cancelled, non-completed booking of that therapist on that date
(duration taken from the booking's joined service). -/
theorem availableSlotsSound (st : Store) (tid : Nat) (d : String) (slot : Nat)
    (hmem : slot ∈ availableSlots st tid d) :
    slot ∈ defaultSlots ∧
    ∀ b ∈ st.bookings, b.therapist_id = tid → b.scheduled_date = d →
      b.status ≠ BStatus.cancelled → b.status ≠ BStatus.completed →
      ∀ s : Service, (st.services.find? fun sv => sv.id == b.service_id) = some s →
        ¬ (slot < b.scheduled_time + s.duration_minutes ∧
           b.scheduled_time < slot + 60) := by
  unfold availableSlots at hmem
  rw [List.mem_filter] at hmem
  obtain ⟨hgrid, hcond⟩ := hmem
  refine ⟨hgrid, ?_⟩
  intro b hb htid hdate hnc hncomp s hfind hover
  have hnone : (busySlots st tid d).any (slotOverlapsBusy slot) = false := by
    revert hcond
    cases (busySlots st tid d).any (slotOverlapsBusy slot) <;> simp
  have hbusy : (b.scheduled_time, s.duration_minutes) ∈ busySlots st tid d := by
    unfold busySlots
    rw [List.mem_filterMap]
    refine ⟨b, hb, ?_⟩
    have hcondb : (b.therapist_id == tid && b.scheduled_date == d &&
        !(b.status == BStatus.cancelled || b.status == BStatus.completed)) = true := by
      simp [htid, hdate, hnc, hncomp]
    rw [if_pos hcondb, hfind]
    rfl
  have := List.any_eq_false.mp hnone _ hbusy
  apply this
  simp only [slotOverlapsBusy, Bool.and_eq_true, decide_eq_true_eq]
  exact hover

/-- Closed instance of C10: in the conflict store (09:00 booked for 60
minutes) the 08:00 slot is returned and lies on the grid. -/
theorem availableSlotsSoundWitness :
    480 ∈ availableSlots conflictStore 1 "2026-01-10" ∧ 480 ∈ defaultSlots := by
  have hmem : 480 ∈ availableSlots conflictStore 1 "2026-01-10" := by decide
  exact ⟨hmem, (availableSlotsSound conflictStore 1 "2026-01-10" 480 hmem).1⟩

/-- C1: the create-booking transaction issues exactly these queries in
this order: active-service lookup by service and therapist; then, if it
succeeded, the time-slot conflict check; then, if no conflict, the
affiliate-code resolution exactly when a code was supplied; then the
booking insert; and finally the commission insert exactly when an
affiliate row was resolved. -/
theorem bookingCreationStepOrder (st : Store) (inp : CreateBookingInput) :
    (createBooking st inp).1 =
      [Step.lookupService] ++
      (if (findService st inp.service_id inp.therapist_id).isSome then
        [Step.conflictCheck] ++
        (if hasConflict st inp.therapist_id inp.scheduled_date inp.scheduled_time then
          []
        else
          (if codeGiven inp then [Step.resolveAffiliate] else []) ++
          [Step.insertBooking] ++
          (if (commissionAffiliate st inp).isSome then [Step.insertCommission] else []))
      else []) := by
  unfold createBooking createBookingBody
  cases hfs : findService st inp.service_id inp.therapist_id with
  | none => simp
  | some service =>
    simp only [Option.isSome_some, if_true]
    by_cases hc : hasConflict st inp.therapist_id inp.scheduled_date inp.scheduled_time
    · simp [hc]
    · simp only [hc, Bool.false_eq_true, if_false]
      cases hra : resolveAffiliateId st inp with
      | none => simp [commissionAffiliate, hra]
      | some aid =>
        cases hfa : st.affiliates.find? fun a => a.id == aid with
        | none => simp [commissionAffiliate, hra, hfa]
        | some a => simp [commissionAffiliate, hra, hfa]

/-- C2: when some booking of the same therapist, date and time has a
status that is neither 'cancelled' nor 'completed', the create operation
answers unsuccessfully and leaves the store unchanged (no booking row is
inserted); when the service lookup also succeeds the response is the
500 carrying 'Horário não disponível'. -/
theorem slotConflictRejected (st : Store) (inp : CreateBookingInput)
    (h : hasConflict st inp.therapist_id inp.scheduled_date inp.scheduled_time = true) :
    (createBooking st inp).2.1.success = false ∧
    (createBooking st inp).2.2 = st ∧
    ((findService st inp.service_id inp.therapist_id).isSome →
      (createBooking st inp).2.1.status = 500 ∧
      (createBooking st inp).2.1.message = "Horário não disponível") := by
  unfold createBooking createBookingBody
  cases hfs : findService st inp.service_id inp.therapist_id with
  | none => simp
  | some service => simp [h, orGenericMessage]

/-- Closed instance of C2: creating a booking for the already-booked
09:00 slot of the conflict store fails and changes nothing. -/
theorem slotConflictRejectedWitness :
    (createBooking conflictStore sampleInput).2.1.success = false ∧
    (createBooking conflictStore sampleInput).2.2 = conflictStore ∧
    (createBooking conflictStore sampleInput).2.1.message = "Horário não disponível" := by
  have h := slotConflictRejected conflictStore sampleInput (by decide)
  exact ⟨h.1, h.2.1, (h.2.2 (by decide)).2⟩

/-- C3: the transaction is atomic. Whenever the body throws (service not
found or inactive, slot conflict), the handler responds unsuccessfully
and the persisted store is exactly the original; whenever it commits, the
response is successful, the persisted store is the working store, the
booking row is appended, and the commission row is appended together with
it exactly when an affiliate was resolved. -/
theorem bookingTransactionAtomic (st : Store) (inp : CreateBookingInput) :
    (∀ msg, (createBookingBody st inp).2 = TxOutcome.thrown msg →
      (createBooking st inp).2.1.success = false ∧
      (createBooking st inp).2.2 = st) ∧
    (∀ b stc, (createBookingBody st inp).2 = TxOutcome.committed b stc →
      (createBooking st inp).2.1.success = true ∧
      (createBooking st inp).2.2 = stc ∧
      stc.bookings = st.bookings ++ [b] ∧
      (commissionAffiliate st inp = none → stc.commissions = st.commissions) ∧
      (∀ a, commissionAffiliate st inp = some a →
        ∃ c : Commission, stc.commissions = st.commissions ++ [c] ∧
          c.booking_id = b.id ∧ c.affiliate_id = a.id ∧
          c.percentage = a.commission_rate)) := by
  unfold createBooking createBookingBody
  cases hfs : findService st inp.service_id inp.therapist_id with
  | none => simp
  | some service =>
    by_cases hc : hasConflict st inp.therapist_id inp.scheduled_date inp.scheduled_time
    · simp [hc]
    · simp only [hc, Bool.false_eq_true, if_false]
      cases hra : resolveAffiliateId st inp with
      | none =>
        simp only [commissionAffiliate, hra]
        constructor
        · intro msg hmsg
          simp at hmsg
        · intro b stc hcom
          simp only [TxOutcome.committed.injEq] at hcom
          obtain ⟨hb, hstc⟩ := hcom
          subst hb; subst hstc
          simp
      | some aid =>
        cases hfa : st.affiliates.find? fun a => a.id == aid with
        | none =>
          simp only [commissionAffiliate, hra, hfa]
          constructor
          · intro msg hmsg
            simp at hmsg
          · intro b stc hcom
            simp only [TxOutcome.committed.injEq] at hcom
            obtain ⟨hb, hstc⟩ := hcom
            subst hb; subst hstc
            simp
        | some a =>
          have haid : a.id = aid := by
            have := List.find?_some hfa
            simpa using this
          simp only [commissionAffiliate, hra, hfa]
          constructor
          · intro msg hmsg
            simp at hmsg
          · intro b stc hcom
            simp only [TxOutcome.committed.injEq] at hcom
            obtain ⟨hb, hstc⟩ := hcom
            subst hb; subst hstc
            refine ⟨by simp, by simp, by simp, by simp, ?_⟩
            intro a2 ha2
            simp only [Option.some.injEq] at ha2
            subst ha2
            exact ⟨_, rfl, rfl, haid.symm, rfl⟩

/-- Closed instance of C3: on the sample store the transaction commits,
persisting the booking row and its commission row together. -/
theorem bookingTransactionAtomicWitness :
    (createBooking sampleStore sampleInput).2.1.success = true ∧
    (createBooking sampleStore sampleInput).2.2.bookings =
      sampleStore.bookings ++
        [mkBooking sampleStore sampleInput sampleService.price (some sampleAffiliate.id)] ∧
    ∃ c : Commission,
      (createBooking sampleStore sampleInput).2.2.commissions =
        sampleStore.commissions ++ [c] ∧ c.affiliate_id = sampleAffiliate.id := by
  have h := (bookingTransactionAtomic sampleStore sampleInput).2
    (mkBooking sampleStore sampleInput sampleService.price (some sampleAffiliate.id))
    { services := [sampleService], affiliates := [sampleAffiliate],
      bookings := [mkBooking sampleStore sampleInput sampleService.price
        (some sampleAffiliate.id)],
      commissions := [{ affiliate_id := sampleAffiliate.id,
                        booking_id := sampleStore.nextBookingId,
                        amount := sampleService.price * sampleAffiliate.commission_rate / 100,
                        percentage := sampleAffiliate.commission_rate,
                        status := CStatus.pending }],
      nextBookingId := sampleStore.nextBookingId + 1 }
    rfl
  obtain ⟨hsucc, hstore, hbook, _, hcomm⟩ := h
  obtain ⟨c, hc, _, hcid, _⟩ := hcomm sampleAffiliate (by decide)
  exact ⟨hsucc, by rw [hstore, hbook], ⟨c, by rw [hstore, hc], hcid⟩⟩

/-- C6: when the supplied affiliate_code resolves to an existing
affiliate (and the service lookup and conflict check pass), exactly one
commission row is appended, with percentage equal to that affiliate's
commission_rate, amount equal to service price × commission_rate / 100,
and status 'pending'. -/
theorem commissionRowComputed (st : Store) (inp : CreateBookingInput)
    (a : Affiliate) (s : Service)
    (ha : commissionAffiliate st inp = some a)
    (hs : findService st inp.service_id inp.therapist_id = some s)
    (hc : hasConflict st inp.therapist_id inp.scheduled_date inp.scheduled_time = false) :
    (createBooking st inp).2.1.success = true ∧
    (createBooking st inp).2.2.commissions =
      st.commissions ++
        [{ affiliate_id := a.id, booking_id := st.nextBookingId,
           amount := s.price * a.commission_rate / 100,
           percentage := a.commission_rate, status := CStatus.pending }] := by
  unfold commissionAffiliate at ha
  cases hra : resolveAffiliateId st inp with
  | none => rw [hra] at ha; simp at ha
  | some aid =>
    rw [hra] at ha
    have ha2 : (st.affiliates.find? fun x => x.id == aid) = some a := ha
    have haid : a.id = aid := by
      have := List.find?_some ha2
      simpa using this
    unfold createBooking createBookingBody
    rw [hs]
    simp only [hc, Bool.false_eq_true, if_false, hra, ha2]
    simp [haid, mkBooking]

/-- Closed instance of C6: the sample request with code AFF01 yields
exactly the commission row (affiliate 5, booking 1, amount
200 × 15 / 100, percentage 15, pending). -/
theorem commissionRowComputedWitness :
    (createBooking sampleStore sampleInput).2.1.success = true ∧
    (createBooking sampleStore sampleInput).2.2.commissions =
      sampleStore.commissions ++
        [{ affiliate_id := sampleAffiliate.id, booking_id := sampleStore.nextBookingId,
           amount := sampleService.price * sampleAffiliate.commission_rate / 100,
           percentage := sampleAffiliate.commission_rate, status := CStatus.pending }] :=
  commissionRowComputed sampleStore sampleInput sampleAffiliate sampleService
    (by decide) (by decide) (by decide)

/-- C9: when an affiliate_code is supplied but matches no affiliate's
referral_code (and the service lookup and conflict check pass), the
operation still succeeds with a 201: the booking is inserted with
affiliate_id null, no commission row is created, and no error is
returned for the unknown code. -/
theorem unknownAffiliateCodeIgnored (st : Store) (inp : CreateBookingInput)
    (c : String) (s : Service)
    (hcode : inp.affiliate_code = some c) (hne : c ≠ "")
    (hnomatch : ∀ a ∈ st.affiliates, a.referral_code ≠ c)
    (hs : findService st inp.service_id inp.therapist_id = some s)
    (hc : hasConflict st inp.therapist_id inp.scheduled_date inp.scheduled_time = false) :
    (createBooking st inp).2.1.success = true ∧
    (createBooking st inp).2.1.status = 201 ∧
    (createBooking st inp).2.2.bookings = st.bookings ++ [mkBooking st inp s.price none] ∧
    (createBooking st inp).2.2.commissions = st.commissions := by
  have hra : resolveAffiliateId st inp = none := by
    unfold resolveAffiliateId
    rw [hcode]
    simp only [hne, if_true, ne_eq, not_false_iff]
    have : (st.affiliates.find? fun a => a.referral_code == c) = none := by
      rw [List.find?_eq_none]
      intro a hmem
      simpa using hnomatch a hmem
    simp [this]
  unfold createBooking createBookingBody
  rw [hs]
  simp [hc, hra]

/-- Closed instance of C9: the sample request with unknown code NOPE
succeeds, inserts the booking with null affiliate_id, and creates no
commission. -/
theorem unknownAffiliateCodeIgnoredWitness :
    (createBooking sampleStore unknownCodeInput).2.1.status = 201 ∧
    (createBooking sampleStore unknownCodeInput).2.2.bookings =
      sampleStore.bookings ++
        [mkBooking sampleStore unknownCodeInput sampleService.price none] ∧
    (createBooking sampleStore unknownCodeInput).2.2.commissions =
      sampleStore.commissions := by
  have h := unknownAffiliateCodeIgnored sampleStore unknownCodeInput "NOPE"
    sampleService rfl (by decide) (by decide) (by decide) (by decide)
  exact ⟨h.2.1, h.2.2.1, h.2.2.2⟩

end Lunara
